import Mathlib

/-!
Verification development for the cross-region SSO demo.

The server side embeds `src/us-api/server.js`: its issuer allow-list
(`ACCEPTED_ISSUERS`), the federated signing-key lookup (`getKey`), the CORS
origin callback, and the `authenticate` middleware.  The token-verification
pipeline performed by the `jsonwebtoken` library (invoked by `authenticate`
with algorithms pinned to `["RS256"]` and `issuer: ACCEPTED_ISSUERS`) is not
part of the repository source, so it is modelled from the spec (section 4.4).
The client side embeds `src/eu-app/src/App.tsx`: the post-init `idp_hint`
redirect and the `callApi` refresh-before-fetch logic; the `keycloak-js`
`updateToken` primitive and the `jwks-rsa` cache are likewise modelled from
the spec where the library internals are outside the repository.
-/

namespace CrossRegionSSO

/-! ## Configuration (`src/us-api/server.js` lines 9-28) -/

/-- The environment-derived configuration of the US API server.  Fields mirror
the constants `KEYCLOAK_URL`, `KEYCLOAK_EXTERNAL_URL`, `REALM`, `CORS_ORIGIN`,
`CROSS_KEYCLOAK_URL`, `CROSS_KEYCLOAK_EXTERNAL_URL`, `CROSS_REALM` and
`CROSS_CORS_ORIGIN`. -/
structure Config where
  keycloakUrl : String
  keycloakExternalUrl : String
  realm : String
  corsOrigin : String
  crossKeycloakUrl : String
  crossKeycloakExternalUrl : String
  crossRealm : String
  crossCorsOrigin : String
  deriving Repr, DecidableEq

/-- The default configuration values from `server.js` (the `||` fallbacks). -/
def defaultConfig : Config :=
  { keycloakUrl := "http://localhost:8080"
    keycloakExternalUrl := "http://localhost:8080"
    realm := "us-realm"
    corsOrigin := "http://localhost:3000"
    crossKeycloakUrl := "http://localhost:8081"
    crossKeycloakExternalUrl := "http://localhost:8081"
    crossRealm := "eu-realm"
    crossCorsOrigin := "http://localhost:3001" }

/-- Issuer identity string `<base-url>/realms/<realm>` as interpolated in
`server.js` lines 82-85. -/
def issuerOf (base realm : String) : String := base ++ "/realms/" ++ realm

/-- `ACCEPTED_ISSUERS` (`server.js` lines 81-86): the four-element allow-list
of trusted issuer URLs — local internal, local external, cross-region
internal, cross-region external. -/
def ACCEPTED_ISSUERS (c : Config) : List String :=
  [ issuerOf c.keycloakUrl c.realm,
    issuerOf c.keycloakExternalUrl c.realm,
    issuerOf c.crossKeycloakUrl c.crossRealm,
    issuerOf c.crossKeycloakExternalUrl c.crossRealm ]

/-! ## Tokens -/

/-- JWT header: algorithm and key identifier. -/
structure TokenHeader where
  alg : String
  kid : String
  deriving Repr, DecidableEq

/-- JWT claims body; only the claims the verification pipeline inspects are
carried (`iss`, `exp`), plus the subject for realism. -/
structure TokenPayload where
  iss : String
  sub : String
  exp : Nat
  deriving Repr, DecidableEq

/-- A parsed JWT: header, payload, and the (opaque) signature part. -/
structure Token where
  header : TokenHeader
  payload : TokenPayload
  signature : String
  deriving Repr, DecidableEq

/-! ## Federated key lookup (`getKey`, `server.js` lines 54-71) -/

/-- A JWKS key set: an association list from kid to public key, as served by
one region's key-discovery endpoint. -/
abbrev Jwks : Type := List (String × String)

/-- `getSigningKey` on one JWKS client: look up the key stored under `kid`;
`none` models the `err` branch ("kid not found"). -/
def lookupKid (jwks : Jwks) (kid : String) : Option String :=
  (List.find? (fun p => p.1 == kid) jwks).map (fun p => p.2)

/-- `getKey` (`server.js` lines 54-71): try the local JWKS first; if the kid
is not found there, fall back to the cross-region JWKS; if neither yields a
key the overall lookup fails (the callback receives `crossErr`). -/
def getKey (localJwks crossJwks : Jwks) (kid : String) : Option String :=
  match lookupKid localJwks kid with
  | some key => some key
  | none => lookupKid crossJwks kid

/-! ## Token verification pipeline -/

/-- Rejection taxonomy of the Token Verifier (spec sections 4.4 and 7). -/
inductive VerifyError where
  | Malformed
  | UnknownSigningKey
  | BadSignature
  | UntrustedIssuer
  | Expired
  deriving Repr, DecidableEq

/-- Modelled from the spec: the short human-readable taxonomy label carried as
`err.message` by each rejection ("only a short taxonomy label and, optionally,
a human-readable detail string"). -/
def VerifyError.message : VerifyError → String
  | .Malformed => "jwt malformed"
  | .UnknownSigningKey => "signing key not found"
  | .BadSignature => "invalid signature"
  | .UntrustedIssuer => "jwt issuer invalid"
  | .Expired => "jwt expired"

/-- Modelled from the spec: the `jsonwebtoken` `jwt.verify` pipeline as
configured by `authenticate` in `src/us-api/server.js` (the library itself is
not repository source).  Steps in the spec's mandatory order (section 4.4):
resolve the header's kid through the supplied key lookup (`UnknownSigningKey`
on failure); verify the signature under the pinned algorithm list
(`BadSignature` on algorithm mismatch or bad signature); check the issuer
claim against the allow-list by exact membership (`UntrustedIssuer`); check
`exp` against the current time with zero clock skew (`Expired`).  `checkSig`
abstracts the cryptographic signature check. -/
def jwtVerify (checkSig : String → String → Token → Bool)
    (getKeyFn : String → Option String)
    (algorithms : List String) (issuers : List String)
    (now : Nat) (t : Token) : Except VerifyError TokenPayload :=
  match getKeyFn t.header.kid with
  | none => .error .UnknownSigningKey
  | some key =>
    if algorithms.contains t.header.alg then
      if checkSig t.header.alg key t then
        if issuers.contains t.payload.iss then
          if now < t.payload.exp then .ok t.payload
          else .error .Expired
        else .error .UntrustedIssuer
      else .error .BadSignature
    else .error .BadSignature

/-- Modelled from the spec: raw-token verification — structural parse first
(`Malformed` on failure, spec section 4.4 step 1), then the claim checks of
`jwtVerify`.  `decode` abstracts base64/JSON parsing of the compact JWT. -/
def verifyRaw (decode : String → Option Token)
    (checkSig : String → String → Token → Bool)
    (getKeyFn : String → Option String)
    (algorithms : List String) (issuers : List String)
    (now : Nat) (raw : String) : Except VerifyError TokenPayload :=
  match decode raw with
  | none => .error .Malformed
  | some t => jwtVerify checkSig getKeyFn algorithms issuers now t

/-! ## Authentication gate (`authenticate`, `server.js` lines 110-139) -/

/-- JavaScript `String.prototype.split` with a single-character separator:
splits at every occurrence, keeping empty segments (so `"Bearer ".split(" ")`
is `["Bearer", ""]`). -/
def splitChar (sep : Char) : List Char → List (List Char)
  | [] => [[]]
  | c :: rest =>
    let r := splitChar sep rest
    if c == sep then [] :: r
    else
      match r with
      | [] => [[c]]
      | seg :: segs => (c :: seg) :: segs

/-- `s.split(sep)` on strings. -/
def jsSplit (s : String) (sep : Char) : List String :=
  (splitChar sep s.data).map (fun cs => String.mk cs)

/-- `s.startsWith(pre)`. -/
def startsWithB (s pre : String) : Bool := List.isPrefixOf pre.data s.data

/-- Outcome of the `authenticate` middleware: a 401 JSON rejection
`\x7b error, detail? \x7d`, or admission with the decoded claims attached to the
request (`req.user = decoded; next()`). -/
inductive AuthResult where
  | reject (status : Nat) (error : String) (detail : Option String)
  | accept (claims : TokenPayload)
  deriving Repr, DecidableEq

/-- The token part extracted by `authHeader.split(" ")[1]` after the
`startsWith("Bearer ")` guard; `none` when the header is absent or the scheme
is not `Bearer`. -/
def bearerToken (authHeader : Option String) : Option String :=
  match authHeader with
  | none => none
  | some h =>
    if startsWithB h "Bearer " then some ((jsSplit h ' ').getD 1 "")
    else none

/-- `authenticate` (`server.js` lines 110-139), parametric in the verifier it
delegates to: a missing header or a non-`Bearer` scheme rejects 401 with
`error: "Missing or invalid Authorization header"` before any verification;
otherwise the extracted token is passed to `jwt.verify`, whose failure rejects
401 with `error: "Invalid token"` and `detail: err.message`, and whose success
admits the request with the decoded claims. -/
def authenticate (verifyFn : String → Except VerifyError TokenPayload)
    (authHeader : Option String) : AuthResult :=
  match authHeader with
  | none => .reject 401 "Missing or invalid Authorization header" none
  | some h =>
    if startsWithB h "Bearer " then
      match verifyFn ((jsSplit h ' ').getD 1 "") with
      | .error e => .reject 401 "Invalid token" (some e.message)
      | .ok claims => .accept claims
    else .reject 401 "Missing or invalid Authorization header" none

/-! ## CORS origin policy (`server.js` lines 91-105) -/

/-- `allowedOrigins` (`server.js` line 91): local and cross-region frontend
origins. -/
def allowedOrigins (c : Config) : List String := [c.corsOrigin, c.crossCorsOrigin]

/-- Result of the CORS `origin` callback: `cb(null, true)` or
`cb(new Error(...))`. -/
inductive CorsDecision where
  | allowed
  | rejectedMsg (msg : String)
  deriving Repr, DecidableEq

/-- The CORS origin callback (`server.js` lines 95-101).  `origin = none`
models a request with no `Origin` header (the callback receives `undefined`).
The source guard is `if (!origin || allowedOrigins.includes(origin))`: in
JavaScript the empty string is falsy, so a present-but-empty `Origin` value
also takes the `!origin` branch and is admitted. -/
def corsOriginCb (allowed : List String) (origin : Option String) : CorsDecision :=
  match origin with
  | none => .allowed
  | some o =>
    if o == "" || allowed.contains o then .allowed
    else .rejectedMsg ("CORS: origin " ++ o ++ " not allowed")

/-- Result of the request pipeline: CORS failure, 401 rejection from the
authentication gate, or admission. -/
inductive ServerResult where
  | corsError (msg : String)
  | authReject (status : Nat) (error : String) (detail : Option String)
  | admitted (claims : TokenPayload)
  deriving Repr, DecidableEq

/-- The US API request pipeline for a protected route: the CORS middleware
(`app.use(cors(...))`, registered first) runs before `authenticate`, which
delegates to `jwt.verify` configured with `algorithms: ["RS256"]` and
`issuer: ACCEPTED_ISSUERS` and with `getKey` as key resolver. -/
def handleRequest (cfg : Config) (decode : String → Option Token)
    (checkSig : String → String → Token → Bool)
    (localJwks crossJwks : Jwks) (now : Nat)
    (origin : Option String) (authHeader : Option String) : ServerResult :=
  match corsOriginCb (allowedOrigins cfg) origin with
  | .rejectedMsg m => .corsError m
  | .allowed =>
    match authenticate
        (verifyRaw decode checkSig (getKey localJwks crossJwks)
          ["RS256"] (ACCEPTED_ISSUERS cfg) now) authHeader with
    | .reject st e d => .authReject st e d
    | .accept claims => .admitted claims

/-! ## Client session controller (`src/eu-app/src/App.tsx`) -/

/-- The token held by the client session: opaque value plus `exp` (seconds). -/
structure ClientToken where
  value : String
  exp : Nat
  deriving Repr, DecidableEq

/-- Client session state (spec section 3): exactly one live token while
authenticated, replaced wholesale; `anonymous` otherwise. -/
inductive SessionState where
  | anonymous
  | authenticated (tok : ClientToken)
  deriving Repr, DecidableEq

/-- Modelled from the spec: `keycloak.updateToken(minValidity)` of the
`keycloak-js` library (not repository source).  If the held token's remaining
time-to-expiry is at least `minValidity` seconds, it is kept and returned; if
under the margin, a refresh against the home provider is performed —
`refreshOutcome` is its result — and on success the held token is replaced
atomically; on failure the session drops to `anonymous` and an error is
surfaced rather than proceeding with the stale token. -/
def updateToken (minValidity : Nat) (now : Nat)
    (refreshOutcome : Option ClientToken) :
    SessionState → SessionState × Except String ClientToken
  | .anonymous => (.anonymous, .error "not authenticated")
  | .authenticated tok =>
    if now + minValidity ≤ tok.exp then (.authenticated tok, .ok tok)
    else
      match refreshOutcome with
      | some newTok => (.authenticated newTok, .ok newTok)
      | none => (.anonymous, .error "refresh failed")

/-- What a `callApi` invocation did after the refresh step. -/
inductive ApiCallOutcome where
  | errorShown (msg : String)
  | fetchedWith (bearer : String)
  deriving Repr, DecidableEq

/-- `callApi` from `ApiDemo` (`App.tsx`): `await keycloak.updateToken(30)`
— refresh if the token expires within 30 seconds — then `fetch` with
`Authorization: Bearer $\x7bkeycloak.token\x7d`.  A rejection from `updateToken` is
caught and rendered as `Error: ...`, and the fetch is never performed. -/
def callApi (now : Nat) (refreshOutcome : Option ClientToken)
    (s : SessionState) : SessionState × ApiCallOutcome :=
  match updateToken 30 now refreshOutcome s with
  | (s2, .error msg) => (s2, .errorShown ("Error: " ++ msg))
  | (s2, .ok tok) => (s2, .fetchedWith tok.value)

/-! ## Brokered-redirect protocol (`App.tsx` init effect, lines 27-55) -/

/-- `new URLSearchParams(search).get(name)`: the first value bound to `name`,
or `none` when the parameter is absent. -/
def getQueryParam (search : List (String × String)) (name : String) : Option String :=
  (List.find? (fun p => p.1 == name) search).map (fun p => p.2)

/-- The redirect decision taken in the `keycloak.init(...).then((auth) => ...)`
callback: when the silent-auth check leaves the app unauthenticated and a
truthy `idp_hint` query parameter is present, `keycloak.login(\x7b idpHint \x7d)` is
issued (`some hint`); otherwise no redirect (`none`).  The JavaScript guard
`if (idpHint)` is truthiness: the empty string does not trigger a login. -/
def postInitAction (auth : Bool) (search : List (String × String)) : Option String :=
  if auth then none
  else
    match getQueryParam search "idp_hint" with
    | some hint => if hint == "" then none else some hint
    | none => none

/-! ## JWKS client cache (`server.js` lines 33-46) -/

/-- `cacheMaxAge: 600000` (10 minutes, milliseconds) on both JWKS clients. -/
def cacheMaxAge : Nat := 600000

/-- Modelled from the spec: the observable cache/fetch state of one region's
`jwks-rsa` client (`cache: true`, `cacheMaxAge: 600000`; the library itself
is not repository source).  `cachedAt` is the timestamp of the currently
cached key set, `inflight` whether a key-set fetch is in progress, `fetches`
the cumulative number of network fetches issued. -/
structure JwksClientState where
  cachedAt : Option Nat
  inflight : Bool
  fetches : Nat
  deriving Repr, DecidableEq

/-- The state before any request: nothing cached, nothing in flight. -/
def jwksInit : JwksClientState := { cachedAt := none, inflight := false, fetches := 0 }

/-- Whether the cached key set is still fresh at `now`. -/
def cacheFresh (now : Nat) (s : JwksClientState) : Bool :=
  match s.cachedAt with
  | some t => now < t + cacheMaxAge
  | none => false

/-- Modelled from the spec: a key-lookup request arriving at time `now`.  A
fresh cache serves the request with no fetch; otherwise, if a fetch is already
in flight the request joins it (singleflight coalescing — it "must share the
outcome of the single in-flight fetch"); otherwise exactly one new fetch is
started. -/
def jwksRequest (now : Nat) (s : JwksClientState) : JwksClientState :=
  if cacheFresh now s then s
  else if s.inflight then s
  else { s with inflight := true, fetches := s.fetches + 1 }

/-- Modelled from the spec: completion of the in-flight fetch at time `now` —
the whole key set is replaced atomically and all coalesced waiters are
served. -/
def jwksComplete (now : Nat) (s : JwksClientState) : JwksClientState :=
  { s with cachedAt := some now, inflight := false }

/-! ## Helper lemmas -/

/-- `List.contains` on strings is exact membership. -/
theorem contains_eq_true_iff (l : List String) (a : String) :
    l.contains a = true ↔ a ∈ l := by
  simp [List.contains, List.elem_iff]

/-- A successful `lookupKid` returns the key stored under the requested kid. -/
theorem lookupKid_mem (jwks : Jwks) (kid k : String)
    (h : lookupKid jwks kid = some k) : (kid, k) ∈ jwks := by
  unfold lookupKid at h
  cases hf : List.find? (fun q => q.1 == kid) jwks with
  | none => rw [hf] at h; simp at h
  | some q =>
    rw [hf] at h
    have hq := List.find?_some hf
    have hm : q ∈ jwks := List.mem_of_find?_eq_some hf
    have h1 : q.1 = kid := by simpa using hq
    have h2 : q.2 = k := by simpa using h
    have : q = (kid, k) := by
      obtain ⟨a, b⟩ := q
      simp_all
    rwa [this] at hm

/-- Inversion: an accepted verification resolved a key for the token's kid,
passed the signature check, carried an algorithm from the pinned list and an
issuer from the allow-list, and was unexpired; the returned claims are the
token's own payload. -/
theorem jwtVerify_ok_inv (checkSig : String → String → Token → Bool)
    (getKeyFn : String → Option String) (algorithms issuers : List String)
    (now : Nat) (t : Token) (p : TokenPayload)
    (h : jwtVerify checkSig getKeyFn algorithms issuers now t = .ok p) :
    (∃ k, getKeyFn t.header.kid = some k ∧ checkSig t.header.alg k t = true) ∧
    algorithms.contains t.header.alg = true ∧ issuers.contains t.payload.iss = true ∧
    now < t.payload.exp ∧ p = t.payload := by
  unfold jwtVerify at h
  split at h
  · simp at h
  · rename_i key heq
    split at h
    · split at h
      · split at h
        · split at h
          · rename_i h1 h2 h3 h4
            simp only [Except.ok.injEq] at h
            exact ⟨⟨key, heq, h2⟩, h1, h3, h4, h.symm⟩
          · simp at h
        · simp at h
      · simp at h
    · simp at h

/-! ## Claim theorems -/

/-- C3: federated key lookup tries the local resolver first; only when the
local resolver yields no key is the cross-region resolver consulted; the first
resolver that yields a key wins; if neither yields a key the lookup fails; and
a returned key is always the one stored under the requested kid in one of the
two key sets, never a key of a different kid. -/
theorem getKey_local_first_cross_fallback (localJwks crossJwks : Jwks) (kid : String) :
    (∀ k, lookupKid localJwks kid = some k → getKey localJwks crossJwks kid = some k) ∧
    (lookupKid localJwks kid = none →
      getKey localJwks crossJwks kid = lookupKid crossJwks kid) ∧
    (lookupKid localJwks kid = none → lookupKid crossJwks kid = none →
      getKey localJwks crossJwks kid = none) ∧
    (∀ k, getKey localJwks crossJwks kid = some k →
      (kid, k) ∈ localJwks ∨ (kid, k) ∈ crossJwks) := by
  refine ⟨?_, ?_, ?_, ?_⟩
  · intro k hl; simp [getKey, hl]
  · intro hl; simp [getKey, hl]
  · intro hl hc; simp [getKey, hl, hc]
  · intro k hres
    unfold getKey at hres
    cases hl : lookupKid localJwks kid with
    | some key =>
      rw [hl] at hres
      simp only [Option.some.injEq] at hres
      exact Or.inl (lookupKid_mem _ _ _ (hres ▸ hl))
    | none =>
      rw [hl] at hres
      exact Or.inr (lookupKid_mem _ _ _ hres)

/-- Witness for C3 at concrete key sets: a kid present only locally resolves
locally, a kid present only cross-region falls back, an unknown kid fails. -/
theorem getKey_local_first_cross_fallback_witness :
    getKey [("kidA", "KA")] [("kidB", "KB")] "kidA" = some "KA" ∧
    getKey [("kidA", "KA")] [("kidB", "KB")] "kidB" = some "KB" ∧
    getKey [("kidA", "KA")] [("kidB", "KB")] "kidZ" = none := by
  refine ⟨?_, ?_, ?_⟩
  · exact (getKey_local_first_cross_fallback [("kidA", "KA")] [("kidB", "KB")] "kidA").1
      "KA" (by decide)
  · exact ((getKey_local_first_cross_fallback [("kidA", "KA")] [("kidB", "KB")] "kidB").2.1
      (by decide)).trans (by decide)
  · exact (getKey_local_first_cross_fallback [("kidA", "KA")] [("kidB", "KB")] "kidZ").2.2.1
      (by decide) (by decide)

/-- C1: the issuer allow-list is exactly the four issuer URLs (local internal,
local external, peer internal, peer external); trust is exact string
membership in it; and a token whose issuer is not one of the four rejects with
`UntrustedIssuer` even though its kid resolves to a key and its signature is
valid; moreover no token with an issuer outside the list is ever accepted. -/
theorem issuer_trust_exact_allowlist (cfg : Config)
    (checkSig : String → String → Token → Bool) (getKeyFn : String → Option String)
    (now : Nat) (t : Token) (k : String)
    (hkey : getKeyFn t.header.kid = some k)
    (halg : t.header.alg = "RS256")
    (hsig : checkSig "RS256" k t = true)
    (hiss : ∀ i ∈ ACCEPTED_ISSUERS cfg, t.payload.iss ≠ i) :
    (ACCEPTED_ISSUERS cfg).length = 4 ∧
    (∀ s, s ∈ ACCEPTED_ISSUERS cfg ↔
      (s = issuerOf cfg.keycloakUrl cfg.realm ∨
       s = issuerOf cfg.keycloakExternalUrl cfg.realm ∨
       s = issuerOf cfg.crossKeycloakUrl cfg.crossRealm ∨
       s = issuerOf cfg.crossKeycloakExternalUrl cfg.crossRealm)) ∧
    jwtVerify checkSig getKeyFn ["RS256"] (ACCEPTED_ISSUERS cfg) now t =
      .error .UntrustedIssuer ∧
    (∀ t2 : Token, ∀ p, jwtVerify checkSig getKeyFn ["RS256"] (ACCEPTED_ISSUERS cfg) now t2 =
      .ok p → t2.payload.iss ∈ ACCEPTED_ISSUERS cfg) := by
  refine ⟨rfl, ?_, ?_, ?_⟩
  · intro s; simp [ACCEPTED_ISSUERS]
  · have hnm : t.payload.iss ∉ ACCEPTED_ISSUERS cfg := fun hm => hiss _ hm rfl
    simp [jwtVerify, hkey, halg, hsig, hnm]
  · intro t2 p hacc
    exact (contains_eq_true_iff _ _).mp
      (jwtVerify_ok_inv checkSig getKeyFn _ _ now t2 p hacc).2.2.1

/-- Witness for C1 with the default configuration and the spec's example
attack issuer `https://evil.example/realms/us-realm`: the kid resolves, the
signature check passes, yet verification rejects with `UntrustedIssuer`. -/
theorem issuer_trust_exact_allowlist_witness :
    jwtVerify (fun _ _ _ => true) (fun _ => some "K") ["RS256"]
      (ACCEPTED_ISSUERS defaultConfig) 0
      ⟨⟨"RS256", "kid1"⟩, ⟨"https://evil.example/realms/us-realm", "alice", 100⟩, "sig"⟩ =
      .error .UntrustedIssuer := by
  exact (issuer_trust_exact_allowlist defaultConfig (fun _ _ _ => true) (fun _ => some "K")
    0 ⟨⟨"RS256", "kid1"⟩, ⟨"https://evil.example/realms/us-realm", "alice", 100⟩, "sig"⟩
    "K" rfl rfl rfl (by decide)).2.2.1

/-- C2: verification accepts only the pinned asymmetric algorithm RS256 — any
token accepted under the configured `algorithms: ["RS256"]` has `alg = RS256`
in its header, and every token declaring any other algorithm (HMAC, "none",
...) is rejected. -/
theorem rs256_pinned_only (checkSig : String → String → Token → Bool)
    (getKeyFn : String → Option String) (issuers : List String)
    (now : Nat) (t : Token) :
    (∀ p, jwtVerify checkSig getKeyFn ["RS256"] issuers now t = .ok p →
      t.header.alg = "RS256") ∧
    (t.header.alg ≠ "RS256" →
      ∃ e, jwtVerify checkSig getKeyFn ["RS256"] issuers now t = .error e) := by
  constructor
  · intro p hacc
    have h1 := (jwtVerify_ok_inv checkSig getKeyFn _ _ now t p hacc).2.1
    have := (contains_eq_true_iff _ _).mp h1
    simpa using this
  · intro hne
    cases hk : getKeyFn t.header.kid with
    | none => exact ⟨.UnknownSigningKey, by simp [jwtVerify, hk]⟩
    | some key => exact ⟨.BadSignature, by simp [jwtVerify, hk, hne]⟩

/-- Witness for C2: a token declaring HS256 is rejected even though its kid
resolves and the (trivially satisfied) signature check would pass; a token
declaring "none" is rejected as well. -/
theorem rs256_pinned_only_witness :
    (∃ e, jwtVerify (fun _ _ _ => true) (fun _ => some "K") ["RS256"] ["iss1"] 0
      ⟨⟨"HS256", "kid1"⟩, ⟨"iss1", "alice", 100⟩, "sig"⟩ = .error e) ∧
    (∃ e, jwtVerify (fun _ _ _ => true) (fun _ => some "K") ["RS256"] ["iss1"] 0
      ⟨⟨"none", "kid1"⟩, ⟨"iss1", "alice", 100⟩, "sig"⟩ = .error e) := by
  constructor
  · exact (rs256_pinned_only (fun _ _ _ => true) (fun _ => some "K") ["iss1"] 0
      ⟨⟨"HS256", "kid1"⟩, ⟨"iss1", "alice", 100⟩, "sig"⟩).2 (by decide)
  · exact (rs256_pinned_only (fun _ _ _ => true) (fun _ => some "K") ["iss1"] 0
      ⟨⟨"none", "kid1"⟩, ⟨"iss1", "alice", 100⟩, "sig"⟩).2 (by decide)

/-- C6: a token whose `exp` is in the past relative to the current time
(zero clock-skew allowance) is rejected with `Expired`, even when its key
resolves, its signature is valid, and its issuer is trusted. -/
theorem expired_token_rejected (checkSig : String → String → Token → Bool)
    (getKeyFn : String → Option String) (issuers : List String)
    (now : Nat) (t : Token) (k : String)
    (hkey : getKeyFn t.header.kid = some k)
    (halg : t.header.alg = "RS256")
    (hsig : checkSig "RS256" k t = true)
    (hmem : t.payload.iss ∈ issuers)
    (hexp : t.payload.exp < now) :
    jwtVerify checkSig getKeyFn ["RS256"] issuers now t = .error .Expired := by
  have hnlt : ¬ (now < t.payload.exp) := Nat.not_lt.mpr (Nat.le_of_lt hexp)
  simp [jwtVerify, hkey, halg, hsig, hmem, hnlt]

/-- Witness for C6 at `exp` exactly one second before `now` (now = 100,
exp = 99): rejected with `Expired`. -/
theorem expired_token_rejected_witness :
    jwtVerify (fun _ _ _ => true) (fun _ => some "K") ["RS256"] ["iss1"] 100
      ⟨⟨"RS256", "kid1"⟩, ⟨"iss1", "alice", 99⟩, "sig"⟩ = .error .Expired := by
  exact expired_token_rejected (fun _ _ _ => true) (fun _ => some "K") ["iss1"] 100
    ⟨⟨"RS256", "kid1"⟩, ⟨"iss1", "alice", 99⟩, "sig"⟩ "K" rfl rfl rfl (by decide) (by decide)

/-- C5: a request whose Authorization header is absent or does not begin with
the `Bearer ` scheme is rejected immediately with the 401
`Missing or invalid Authorization header` denial, and the outcome is the same
for every verifier — i.e. the token verifier (and hence any key lookup inside
it) is never consulted. -/
theorem missing_bearer_fail_fast (v1 v2 : String → Except VerifyError TokenPayload)
    (authHeader : Option String)
    (h : bearerToken authHeader = none) :
    authenticate v1 authHeader =
      .reject 401 "Missing or invalid Authorization header" none ∧
    authenticate v1 authHeader = authenticate v2 authHeader := by
  cases authHeader with
  | none => exact ⟨rfl, rfl⟩
  | some s =>
    have hs : startsWithB s "Bearer " = false := by
      by_cases hb : startsWithB s "Bearer " = true
      · simp [bearerToken, hb] at h
      · simpa using hb
    constructor <;> simp [authenticate, hs]

/-- Witness for C5: an absent header and a `Basic` scheme header are both
rejected with the fixed 401 body, for an arbitrary concrete verifier. -/
theorem missing_bearer_fail_fast_witness :
    authenticate (fun _ => .error .Malformed) none =
      .reject 401 "Missing or invalid Authorization header" none ∧
    authenticate (fun _ => .error .Malformed) (some "Basic abc") =
      .reject 401 "Missing or invalid Authorization header" none := by
  constructor
  · exact (missing_bearer_fail_fast (fun _ => .error .Malformed)
      (fun _ => .ok ⟨"i", "s", 0⟩) none (by decide)).1
  · exact (missing_bearer_fail_fast (fun _ => .error .Malformed)
      (fun _ => .ok ⟨"i", "s", 0⟩) (some "Basic abc") (by decide)).1

/-- C4: every rejection of the full request pipeline is a 401 whose body is
one of two fixed labels — `Missing or invalid Authorization header` exactly
when no well-formed Bearer credential was supplied (with no detail), and
`Invalid token` exactly when a Bearer credential was supplied but verification
rejected it, with the detail drawn from the five fixed taxonomy strings; in
particular the body never contains configuration-dependent material such as
the accepted-issuer list or cached keys. -/
theorem reject_body_taxonomy_only (cfg : Config) (decode : String → Option Token)
    (checkSig : String → String → Token → Bool) (localJwks crossJwks : Jwks)
    (now : Nat) (origin authHeader : Option String)
    (st : Nat) (e : String) (d : Option String)
    (h : handleRequest cfg decode checkSig localJwks crossJwks now origin authHeader =
      .authReject st e d) :
    st = 401 ∧
    ((bearerToken authHeader = none ∧
        e = "Missing or invalid Authorization header" ∧ d = none) ∨
     (bearerToken authHeader ≠ none ∧ e = "Invalid token" ∧
        ∃ err : VerifyError, d = some err.message)) ∧
    (∀ s, d = some s →
      s ∈ ["jwt malformed", "signing key not found", "invalid signature",
           "jwt issuer invalid", "jwt expired"]) := by
  unfold handleRequest at h
  cases hc : corsOriginCb (allowedOrigins cfg) origin with
  | rejectedMsg m => rw [hc] at h; simp at h
  | allowed =>
    rw [hc] at h
    have hmain : st = 401 ∧
        ((bearerToken authHeader = none ∧
            e = "Missing or invalid Authorization header" ∧ d = none) ∨
         (bearerToken authHeader ≠ none ∧ e = "Invalid token" ∧
            ∃ err : VerifyError, d = some err.message)) := by
      cases authHeader with
      | none =>
        simp only [authenticate] at h
        simp at h
        exact ⟨h.1.symm, Or.inl ⟨rfl, h.2.1.symm, h.2.2.symm⟩⟩
      | some s =>
        by_cases hb : startsWithB s "Bearer " = true
        · simp only [authenticate, hb, if_true] at h
          cases hv : verifyRaw decode checkSig (getKey localJwks crossJwks)
              ["RS256"] (ACCEPTED_ISSUERS cfg) now ((jsSplit s ' ').getD 1 "") with
          | error err =>
            rw [hv] at h
            simp at h
            refine ⟨h.1.symm, Or.inr ⟨?_, h.2.1.symm, err, h.2.2.symm⟩⟩
            simp [bearerToken, hb]
          | ok claims => rw [hv] at h; simp at h
        · have hs : startsWithB s "Bearer " = false := by simpa using hb
          simp only [authenticate, hs] at h
          simp at h
          have hbt : bearerToken (some s) = none := by simp [bearerToken, hs]
          exact ⟨h.1.symm, Or.inl ⟨hbt, h.2.1.symm, h.2.2.symm⟩⟩
    refine ⟨hmain.1, hmain.2, ?_⟩
    intro s hd
    rcases hmain.2 with ⟨_, _, hnone⟩ | ⟨_, _, err, herr⟩
    · rw [hnone] at hd; cases hd
    · rw [herr] at hd
      cases err <;> simp_all [VerifyError.message]

/-- Witness for C4: a malformed Bearer token is rejected 401 / `Invalid token`
with the fixed detail `jwt malformed`, which is among the five taxonomy
strings. -/
theorem reject_body_taxonomy_only_witness :
    handleRequest defaultConfig (fun _ => none) (fun _ _ _ => true) [] [] 0
      none (some "Bearer x") = .authReject 401 "Invalid token" (some "jwt malformed") ∧
    "jwt malformed" ∈ ["jwt malformed", "signing key not found", "invalid signature",
      "jwt issuer invalid", "jwt expired"] := by
  have hr : handleRequest defaultConfig (fun _ => none) (fun _ _ _ => true) [] [] 0
      none (some "Bearer x") = .authReject 401 "Invalid token" (some "jwt malformed") := by
    decide
  refine ⟨hr, ?_⟩
  exact (reject_body_taxonomy_only defaultConfig (fun _ => none) (fun _ _ _ => true)
    [] [] 0 none (some "Bearer x") 401 "Invalid token" (some "jwt malformed") hr).2.2
    "jwt malformed" rfl

/-- C7: every token-requiring operation (`callApi`) first checks remaining
time-to-expiry against the 30-second margin: under the margin with a
successful refresh it proceeds with the refreshed token (never the stale one);
under the margin with a failed refresh the session drops to `anonymous`, an
error is surfaced, and no fetch is performed; at or above the margin it
proceeds with the held token and the refresh outcome is never consulted. -/
theorem callApi_refresh_margin (now : Nat) (tok newTok : ClientToken) :
    (tok.exp < now + 30 →
      callApi now (some newTok) (.authenticated tok) =
        (.authenticated newTok, .fetchedWith newTok.value)) ∧
    (tok.exp < now + 30 →
      callApi now none (.authenticated tok) =
        (.anonymous, .errorShown "Error: refresh failed")) ∧
    (now + 30 ≤ tok.exp →
      ∀ r1 r2 : Option ClientToken,
        callApi now r1 (.authenticated tok) = callApi now r2 (.authenticated tok) ∧
        callApi now r1 (.authenticated tok) =
          (.authenticated tok, .fetchedWith tok.value)) := by
  refine ⟨?_, ?_, ?_⟩
  · intro hlt
    have h1 : ¬ (now + 30 ≤ tok.exp) := Nat.not_le.mpr hlt
    simp [callApi, updateToken, h1]
  · intro hlt
    have h1 : ¬ (now + 30 ≤ tok.exp) := Nat.not_le.mpr hlt
    simp [callApi, updateToken, h1]
  · intro hle r1 r2
    constructor <;> simp [callApi, updateToken, hle]

/-- Witness for C7: with 10 seconds to expiry (under the 30-second margin) a
successful refresh is used for the fetch and a failed refresh drops to
anonymous with a surfaced error; with 60 seconds left the held token is used
regardless of the refresh outcome. -/
theorem callApi_refresh_margin_witness :
    callApi 100 (some ⟨"new", 400⟩) (.authenticated ⟨"old", 110⟩) =
      (.authenticated ⟨"new", 400⟩, .fetchedWith "new") ∧
    callApi 100 none (.authenticated ⟨"old", 110⟩) =
      (.anonymous, .errorShown "Error: refresh failed") ∧
    callApi 100 (some ⟨"new", 400⟩) (.authenticated ⟨"old", 160⟩) =
      (.authenticated ⟨"old", 160⟩, .fetchedWith "old") := by
  refine ⟨?_, ?_, ?_⟩
  · exact (callApi_refresh_margin 100 ⟨"old", 110⟩ ⟨"new", 400⟩).1 (by decide)
  · exact (callApi_refresh_margin 100 ⟨"old", 110⟩ ⟨"new", 400⟩).2.1 (by decide)
  · exact ((callApi_refresh_margin 100 ⟨"old", 160⟩ ⟨"new", 400⟩).2.2 (by decide)
      (some ⟨"new", 400⟩) none).2

/-- C8: when the app loads unauthenticated after the silent-auth check and a
non-empty `idp_hint` query parameter is present, it immediately issues
`keycloak.login` directed at exactly that identity-provider alias; when silent
auth succeeds no redirect is issued; when the parameter is absent no redirect
is issued; and the decision depends only on the authentication outcome and the
`idp_hint` parameter value, so two visits with the same parameter behave
identically (idempotence). -/
theorem idp_hint_auto_login (auth : Bool) (search other : List (String × String)) :
    (auth = true → postInitAction auth search = none) ∧
    (∀ hint, auth = false → getQueryParam search "idp_hint" = some hint → hint ≠ "" →
      postInitAction auth search = some hint) ∧
    (auth = false → getQueryParam search "idp_hint" = none →
      postInitAction auth search = none) ∧
    (getQueryParam search "idp_hint" = getQueryParam other "idp_hint" →
      postInitAction auth search = postInitAction auth other) := by
  refine ⟨?_, ?_, ?_, ?_⟩
  · intro ha; simp [postInitAction, ha]
  · intro hint ha hq hne
    have hb : (hint == "") = false := by simpa using hne
    simp [postInitAction, ha, hq, hb]
  · intro ha hq; simp [postInitAction, ha, hq]
  · intro heq
    unfold postInitAction
    rw [heq]

/-- Witness for C8: arriving unauthenticated at
`?idp_hint=eu-keycloak-idp` triggers a login at alias `eu-keycloak-idp`;
arriving authenticated at the same URL triggers nothing. -/
theorem idp_hint_auto_login_witness :
    postInitAction false [("idp_hint", "eu-keycloak-idp")] = some "eu-keycloak-idp" ∧
    postInitAction true [("idp_hint", "eu-keycloak-idp")] = none := by
  constructor
  · exact (idp_hint_auto_login false [("idp_hint", "eu-keycloak-idp")] []).2.1
      "eu-keycloak-idp" rfl (by decide) (by decide)
  · exact (idp_hint_auto_login true [("idp_hint", "eu-keycloak-idp")] []).1 rfl

/-- Requests that join an in-flight fetch leave the client state unchanged. -/
theorem jwksRequest_inflight_fix (t : Nat) (n : Nat) :
    (jwksRequest t)^[n] { cachedAt := none, inflight := true, fetches := 1 } =
      { cachedAt := none, inflight := true, fetches := 1 } := by
  induction n with
  | zero => rfl
  | succ m ih => rw [Function.iterate_succ_apply, (by rfl :
      jwksRequest t { cachedAt := none, inflight := true, fetches := 1 } =
        { cachedAt := none, inflight := true, fetches := 1 })]; exact ih

/-- C9: from a cold cache, any positive number of lookup requests arriving
while the first fetch is still in flight triggers exactly one key-set fetch
(singleflight coalescing), and once a fetch has completed, any request before
the 10-minute `cacheMaxAge` elapses is served from cache and triggers no
additional fetch (the client state is unchanged). -/
theorem jwks_singleflight (n t tc now : Nat) (s : JwksClientState) :
    (1 ≤ n → ((jwksRequest t)^[n] jwksInit).fetches = 1) ∧
    (now < tc + cacheMaxAge → jwksRequest now (jwksComplete tc s) = jwksComplete tc s) := by
  constructor
  · intro hn
    obtain ⟨m, rfl⟩ : ∃ m, n = m + 1 := ⟨n - 1, (Nat.succ_pred_eq_of_pos hn).symm⟩
    rw [Function.iterate_succ_apply, (by rfl : jwksRequest t jwksInit =
      { cachedAt := none, inflight := true, fetches := 1 }),
      jwksRequest_inflight_fix]
  · intro hfresh
    have hf : cacheFresh now (jwksComplete tc s) = true := by
      simp [cacheFresh, jwksComplete, hfresh]
    simp [jwksRequest, hf]

/-- Witness for C9: five concurrent requests from a cold cache cause one
fetch; after completion at time 0, a request at time 599999 (just inside the
10-minute TTL) changes nothing. -/
theorem jwks_singleflight_witness :
    ((jwksRequest 0)^[5] jwksInit).fetches = 1 ∧
    jwksRequest 599999 (jwksComplete 0 jwksInit) = jwksComplete 0 jwksInit := by
  constructor
  · exact (jwks_singleflight 5 0 0 0 jwksInit).1 (by decide)
  · exact (jwks_singleflight 5 0 0 599999 jwksInit).2 (by decide)

/-- C10 counterexample: the claim says the allow-list check rejects every
request that presents an `Origin` header whose value is not in the allow-list;
but a present-but-empty `Origin` value is falsy in JavaScript, takes the
`!origin` branch, and is admitted although the empty string is not in the
allow-list. -/
theorem cors_empty_origin_counterexample :
    corsOriginCb (allowedOrigins defaultConfig) (some "") = .allowed ∧
    (allowedOrigins defaultConfig).contains "" = false := by
  decide

/-- C10 (amended): a request with no `Origin` header — or with an empty
`Origin` value, which JavaScript treats like an absent one — is admitted
unconditionally; a listed origin is admitted; and a presented non-empty
unlisted origin makes the whole pipeline fail with the CORS error before any
identity work (the outcome is the same for every decoder, signature checker,
key set and Authorization header). -/
theorem cors_origin_policy (cfg : Config) (decode : String → Option Token)
    (checkSig : String → String → Token → Bool) (localJwks crossJwks : Jwks)
    (now : Nat) (authHeader : Option String) (o : String)
    (ho : (o == "") = false) (hmem : (allowedOrigins cfg).contains o = false) :
    corsOriginCb (allowedOrigins cfg) none = .allowed ∧
    corsOriginCb (allowedOrigins cfg) (some "") = .allowed ∧
    (∀ o2, (allowedOrigins cfg).contains o2 = true →
      corsOriginCb (allowedOrigins cfg) (some o2) = .allowed) ∧
    handleRequest cfg decode checkSig localJwks crossJwks now (some o) authHeader =
      .corsError ("CORS: origin " ++ o ++ " not allowed") := by
  refine ⟨rfl, by simp [corsOriginCb], ?_, ?_⟩
  · intro o2 h2
    have hm2 : o2 ∈ allowedOrigins cfg := (contains_eq_true_iff _ _).mp h2
    simp [corsOriginCb, hm2]
  · have hnm : o ∉ allowedOrigins cfg := fun hm => by
      rw [(contains_eq_true_iff _ _).mpr hm] at hmem
      cases hmem
    simp [handleRequest, corsOriginCb, ho, hnm]

/-- Witness for C10 (amended) at the default configuration: an absent origin
is admitted while the unlisted origin `https://evil.example` makes the
pipeline fail with the CORS error before any identity work. -/
theorem cors_origin_policy_witness :
    corsOriginCb (allowedOrigins defaultConfig) none = .allowed ∧
    handleRequest defaultConfig (fun _ => none) (fun _ _ _ => true) [] [] 0
      (some "https://evil.example") (some "Bearer x") =
      .corsError "CORS: origin https://evil.example not allowed" := by
  have h := cors_origin_policy defaultConfig (fun _ => none) (fun _ _ _ => true) [] [] 0
    (some "Bearer x") "https://evil.example" (by decide) (by decide)
  exact ⟨h.1, h.2.2.2⟩

end CrossRegionSSO
